import Mathlib

/-!
Verification of the deployment convergence engine
(paasta_tools/cli/cmds/mark_for_deployment.py) and of the kubernetes
application controller wrappers, as a shallow embedding in Lean.

External effects (the paasta API client, git pushes, the event log sink and
the kubernetes client) are passed in as explicit inputs and returned as
explicit call traces, so every function here is the pure core of the
corresponding Python function.
-/

namespace MarkForDeployment

/-- Python semantics of `s.startswith(pre)`: `pre` is a character-wise
prefix of `s`. -/
def pyStartswith (s pre : String) : Bool :=
  pre.data.isPrefixOf s.data

/-- Fields of `status.marathon` read by `is_instance_deployed`. Each field of
the API response object may be unset (`None` in Python), hence `Option`. -/
structure MarathonStatus where
  app_count : Option Nat
  deploy_status : Option String
  expected_instance_count : Option Nat
  running_instance_count : Option Nat
deriving DecidableEq

/-- Fields of the instance status returned by
`api.service.status_instance(...)` that `is_instance_deployed` reads.
`marathon = none` models an instance with no workload-management
(marathon) data, e.g. a chronos service. -/
structure InstanceStatus where
  git_sha : Option String
  marathon : Option MarathonStatus
deriving DecidableEq

/-- Message of the `TypeError` Python raises when `str.startswith` is given
`None` as its argument. -/
def startswithNoneTypeError : String :=
  "TypeError: startswith first arg must be str or a tuple of str, not NoneType"

/-- Embedding of `is_instance_deployed(service, instance, git_sha)`. The API
fetch is passed in as `status`; `git_sha` is the target commit. Python
evaluates `git_sha.startswith(status.git_sha)` first, which raises a
`TypeError` when `status.git_sha` is `None` (modelled as `.error`);
comparisons of an unset field against a value (`None == 1`,
`None == "Running"`) are `False` in Python, and `None == None` is `True`,
which is exactly the behaviour of `Option` equality below. -/
def is_instance_deployed (git_sha : String) (status : InstanceStatus) :
    Except String Bool :=
  match status.marathon with
  | none => .ok true
  | some m =>
    match status.git_sha with
    | none => .error startswithNoneTypeError
    | some observed =>
      .ok (pyStartswith git_sha observed
        && (m.app_count == some 1)
        && (m.deploy_status == some "Running")
        && (m.expected_instance_count == m.running_instance_count))

/-- One `_log(service=..., line=..., component='deploy', level='event')`
call. -/
structure LogEvent where
  service : String
  line : String
  component : String
  level : String
deriving DecidableEq

/-- Helper for the `_log` calls of this module, all of which use
`component='deploy', level='event'`. -/
def mkDeployEvent (service line : String) : LogEvent :=
  { service := service, line := line, component := "deploy", level := "event" }

/-- Success log line of `mark_for_deployment`. -/
def markedLine (commit deploy_group : String) : String :=
  "Marked " ++ commit ++ " in for deployment in deploy group " ++ deploy_group

/-- Failure header log line of `mark_for_deployment`. -/
def failedLine (commit deploy_group : String) : String :=
  "Failed to mark " ++ commit ++ " in for deployment in deploy group " ++
    deploy_group ++ "!"

/-- Embedding of `mark_for_deployment(git_url, deploy_group, service, commit)`.
The outcome of `remote_git.create_remote_refs` is passed in as `pushResult`
(`.error e` carries `str(e)` for the exception the `except` clause catches).
Returns the return code and the emitted `_log` events in order. The Python
function catches every exception from the push and always returns, so the
embedding is a total function. -/
def mark_for_deployment (deploy_group service commit : String)
    (pushResult : Except String Unit) : Nat × List LogEvent :=
  let loglines : List String :=
    match pushResult with
    | .error e => failedLine commit deploy_group :: e.splitOn "\n"
    | .ok _ => [markedLine commit deploy_group]
  let return_code : Nat :=
    match pushResult with
    | .error _ => 1
    | .ok _ => 0
  (return_code, loglines.map (mkDeployEvent service))

end MarkForDeployment

namespace MarkForDeployment

/-- Errors a `wait_for_deployment` call can raise: `NoInstancesFound` (defined
at the bottom of the module) and the `TimeoutError` raised by the `Timeout`
helper and re-raised after logging. The spec names the latter
`DeploymentTimeout`. -/
inductive WaitError where
  | noInstancesFound
  | timeoutError
deriving DecidableEq

/-- Log line emitted when the deploy group resolves to zero instances. -/
def noInstancesLine (service deploy_group : String) : String :=
  "Couldn\x27t find any instances for service " ++ service ++
    " in deploy group " ++ deploy_group

/-- Log line emitted on timeout: it names the elapsed seconds (`timeout`) and
carries the remediation guidance about running paasta status and raising the
timeout. -/
def timedOutLine (timeout : Nat) (deploy_group service : String) : String :=
  "Timed out after " ++ toString timeout ++ " seconds, waiting for " ++
    deploy_group ++ " in " ++ service ++ " to be deployed by PaaSTA. " ++
    "Try running \x27paasta status -s " ++ service ++
    " -v\x27 to determine the cause. " ++
    "If the service is slow to start you may wish to increase the timeout"

/-- Modelled from the spec: the `Timeout` context manager lives in
`paasta_tools.utils`, which is not under src/; per the spec it enforces a
hard wall-clock deadline measured from the start of the wait, aborting the
enclosed loop with `TimeoutError` exactly when elapsed time reaches
`timeout` seconds, interrupting a sleep in progress. Iteration `k` of the
polling loop runs its readiness checks (instantaneous) at elapsed time
`10 * k` and sleeps 10 seconds when not yet converged. Returns
`some (10 * k)`, the elapsed time, on convergence at iteration `k`, and
`none` when the deadline fires first (at elapsed time `timeout`). -/
def poll_loop (allReady : Nat → Bool) (timeout k : Nat) : Option Nat :=
  if 10 * k ≥ timeout then none
  else if allReady k then some (10 * k)
  else poll_loop allReady timeout (k + 1)
termination_by timeout - 10 * k
decreasing_by omega

/-- Observable outcome of one `wait_for_deployment` call: its result, the
`_log` events it emitted, and the wall-clock time elapsed when it
returned or raised. -/
structure WaitTrace where
  result : Except WaitError Unit
  logs : List LogEvent
  elapsed : Nat

/-- Embedding of `wait_for_deployment(service, deploy_group, git_sha,
soa_dir, timeout)`. The instance list resolved by
`api.service.list_instances` is passed in as `instances`; the boolean
outcome of `is_instance_deployed(service, instance, git_sha)` at loop
iteration `k` is passed in as `ready k instance` (a fresh snapshot per
iteration, as in the source, where the list comprehension re-queries every
instance each time around the loop). On an empty instance list it logs once
and raises `NoInstancesFound` at elapsed time 0, without entering the loop;
on timeout it logs the timeout line and re-raises `TimeoutError`. -/
def wait_for_deployment (service deploy_group : String)
    (instances : List String) (ready : Nat → String → Bool) (timeout : Nat) :
    WaitTrace :=
  if instances.isEmpty then
    { result := .error .noInstancesFound,
      logs := [mkDeployEvent service (noInstancesLine service deploy_group)],
      elapsed := 0 }
  else
    match poll_loop (fun k => instances.all (ready k)) timeout 0 with
    | some t => { result := .ok (), logs := [], elapsed := t }
    | none =>
      { result := .error .timeoutError,
        logs := [mkDeployEvent service (timedOutLine timeout deploy_group service)],
        elapsed := timeout }

end MarkForDeployment

namespace MarkForDeployment

/-- Claim C9: an instance whose status has no workload-management (marathon)
data is always considered deployed, whatever the observed commit field holds
and whatever the target commit is. -/
theorem c9_no_marathon_always_ready (git_sha : String) (gs : Option String) :
    is_instance_deployed git_sha { git_sha := gs, marathon := none } =
      .ok true := rfl

/-- Claim C1: for an instance that has workload-management (marathon) status
data, `is_instance_deployed` returns `true` iff all four conditions hold:
the observed commit is a prefix of the target commit, the replica-set (app)
count is exactly 1, the deploy status is the literal "Running", and the
expected replica count equals the running replica count. Moreover, when the
observed commit field is present, failing any one of the four conditions
makes the result `false`. -/
theorem c1_ready_iff (git_sha : String) (gs : Option String)
    (m : MarathonStatus) :
    (is_instance_deployed git_sha { git_sha := gs, marathon := some m } =
        .ok true ↔
      (∃ observed, gs = some observed ∧ pyStartswith git_sha observed = true) ∧
        m.app_count = some 1 ∧ m.deploy_status = some "Running" ∧
        m.expected_instance_count = m.running_instance_count) ∧
    (∀ observed, gs = some observed →
      ¬(pyStartswith git_sha observed = true ∧ m.app_count = some 1 ∧
          m.deploy_status = some "Running" ∧
          m.expected_instance_count = m.running_instance_count) →
      is_instance_deployed git_sha { git_sha := gs, marathon := some m } =
        .ok false) := by
  constructor
  · cases gs with
    | none =>
      simp [is_instance_deployed]
    | some observed =>
      simp [is_instance_deployed, Bool.and_eq_true, and_assoc]
  · intro observed hgs hnot
    subst hgs
    simp only [is_instance_deployed]
    simp only [Except.ok.injEq]
    rw [Bool.eq_false_iff]
    intro habs
    apply hnot
    simpa [Bool.and_eq_true, and_assoc] using habs

/-- Witness for C1 at concrete inputs: a fully ready status is deployed, and
flipping the commit-prefix condition alone yields `false`. -/
theorem c1_ready_iff_witness :
    is_instance_deployed "abcdef"
      { git_sha := some "abc",
        marathon := some { app_count := some 1, deploy_status := some "Running",
                           expected_instance_count := some 3,
                           running_instance_count := some 3 } } = .ok true ∧
    is_instance_deployed "abcdef"
      { git_sha := some "zzz",
        marathon := some { app_count := some 1, deploy_status := some "Running",
                           expected_instance_count := some 3,
                           running_instance_count := some 3 } } = .ok false := by
  constructor
  · exact (c1_ready_iff "abcdef" (some "abc") _).1.mpr
      ⟨⟨"abc", rfl, by decide⟩, rfl, rfl, rfl⟩
  · exact (c1_ready_iff "abcdef" (some "zzz") _).2 "zzz" rfl (by decide)

/-- Counterexample to claim C8 as stated: a status that carries
workload-management data but whose observed commit field is unset makes
`is_instance_deployed` raise a `TypeError` (from `startswith(None)`) instead
of evaluating to a non-ready `false` result. -/
theorem c8_counterexample :
    is_instance_deployed "abcdef"
      { git_sha := none,
        marathon := some { app_count := some 1, deploy_status := some "Running",
                           expected_instance_count := some 1,
                           running_instance_count := some 1 } } =
      .error startswithNoneTypeError := rfl

/-- Claim C8 (amended): for an instance with workload-management data, a
missing observed commit identifier raises a `TypeError` rather than
returning non-ready; a missing replica-set count or deploy status yields
non-ready `false` without error; a replica count missing on exactly one
side yields non-ready `false`; but both replica counts missing compare
equal (`None == None`) and so do not force a non-ready result. -/
theorem c8_amended (git_sha : String) (m : MarathonStatus) :
    (is_instance_deployed git_sha { git_sha := none, marathon := some m } =
      .error startswithNoneTypeError) ∧
    (∀ observed, m.app_count = none →
      is_instance_deployed git_sha
        { git_sha := some observed, marathon := some m } = .ok false) ∧
    (∀ observed, m.deploy_status = none →
      is_instance_deployed git_sha
        { git_sha := some observed, marathon := some m } = .ok false) ∧
    (∀ observed, m.expected_instance_count = none →
      m.running_instance_count ≠ none →
      is_instance_deployed git_sha
        { git_sha := some observed, marathon := some m } = .ok false) ∧
    (∀ observed, m.expected_instance_count ≠ none →
      m.running_instance_count = none →
      is_instance_deployed git_sha
        { git_sha := some observed, marathon := some m } = .ok false) ∧
    (∀ observed, pyStartswith git_sha observed = true → m.app_count = some 1 →
      m.deploy_status = some "Running" → m.expected_instance_count = none →
      m.running_instance_count = none →
      is_instance_deployed git_sha
        { git_sha := some observed, marathon := some m } = .ok true) := by
  refine ⟨rfl, ?_, ?_, ?_, ?_, ?_⟩
  · intro observed h
    simp [is_instance_deployed, h]
  · intro observed h
    simp [is_instance_deployed, h]
  · intro observed he hr
    cases hrr : m.running_instance_count with
    | none => exact absurd hrr hr
    | some r => simp [is_instance_deployed, he, hrr]
  · intro observed he hr
    cases hee : m.expected_instance_count with
    | none => exact absurd hee he
    | some e => simp [is_instance_deployed, hee, hr]
  · intro observed hp ha hd he hr
    simp [is_instance_deployed, hp, ha, hd, he, hr]

/-- Witness for the amended C8 at concrete inputs, exercising every
hypothesis: missing commit raises, missing app count and missing deploy
status give `false`, one-sided missing replica counts give `false`, and
both replica counts missing with everything else satisfied gives `true`. -/
theorem c8_amended_witness :
    (is_instance_deployed "abcdef"
      { git_sha := none,
        marathon := some { app_count := some 1, deploy_status := some "Running",
                           expected_instance_count := some 2,
                           running_instance_count := some 2 } } =
      .error startswithNoneTypeError) ∧
    (is_instance_deployed "abcdef"
      { git_sha := some "abc",
        marathon := some { app_count := none, deploy_status := some "Running",
                           expected_instance_count := some 2,
                           running_instance_count := some 2 } } = .ok false) ∧
    (is_instance_deployed "abcdef"
      { git_sha := some "abc",
        marathon := some { app_count := some 1, deploy_status := none,
                           expected_instance_count := some 2,
                           running_instance_count := some 2 } } = .ok false) ∧
    (is_instance_deployed "abcdef"
      { git_sha := some "abc",
        marathon := some { app_count := some 1, deploy_status := some "Running",
                           expected_instance_count := none,
                           running_instance_count := some 2 } } = .ok false) ∧
    (is_instance_deployed "abcdef"
      { git_sha := some "abc",
        marathon := some { app_count := some 1, deploy_status := some "Running",
                           expected_instance_count := some 2,
                           running_instance_count := none } } = .ok false) ∧
    (is_instance_deployed "abcdef"
      { git_sha := some "abc",
        marathon := some { app_count := some 1, deploy_status := some "Running",
                           expected_instance_count := none,
                           running_instance_count := none } } = .ok true) := by
  refine ⟨(c8_amended "abcdef" _).1,
    (c8_amended "abcdef" _).2.1 "abc" rfl,
    (c8_amended "abcdef" _).2.2.1 "abc" rfl,
    (c8_amended "abcdef" _).2.2.2.1 "abc" rfl (by decide),
    (c8_amended "abcdef" _).2.2.2.2.1 "abc" (by decide) rfl,
    (c8_amended "abcdef" _).2.2.2.2.2 "abc" (by decide) rfl rfl rfl rfl⟩

/-- Helper: when the readiness check never succeeds, the polling loop always
runs into the deadline, from any starting iteration. -/
theorem poll_loop_of_never (allReady : Nat → Bool) (timeout : Nat)
    (h : ∀ k, allReady k = false) :
    ∀ k, poll_loop allReady timeout k = none := by
  have H : ∀ fuel k, timeout - 10 * k ≤ fuel →
      poll_loop allReady timeout k = none := by
    intro fuel
    induction fuel with
    | zero =>
      intro k hk
      rw [poll_loop]
      have hge : 10 * k ≥ timeout := by omega
      simp [hge]
    | succ n ih =>
      intro k hk
      rw [poll_loop]
      by_cases hge : 10 * k ≥ timeout
      · simp [hge]
      · simp [hge, h k]
        exact ih (k + 1) (by omega)
  exact fun k => H timeout k (by omega)

/-- Claim C6: with an empty resolved instance list, the wait emits exactly
one audit event, fails immediately with `NoInstancesFound`, and does not
enter the polling loop or sleep (elapsed time 0). -/
theorem c6_no_instances (service deploy_group : String)
    (ready : Nat → String → Bool) (timeout : Nat) :
    wait_for_deployment service deploy_group [] ready timeout =
      { result := .error .noInstancesFound,
        logs := [mkDeployEvent service (noInstancesLine service deploy_group)],
        elapsed := 0 } := rfl

/-- Claim C5: for every timeout, if the resolved instance list is non-empty
and at no iteration are all instances ready, the wait terminates (the
embedding is a total function) with elapsed time in
[timeout, timeout + 10), emits exactly the timeout audit event (which
names the elapsed seconds and the remediation guidance), and fails with
the timeout error instead of returning success. -/
theorem c5_timeout (service deploy_group : String) (instances : List String)
    (ready : Nat → String → Bool) (timeout : Nat)
    (hne : instances ≠ [])
    (hnever : ∀ k, instances.all (ready k) = false) :
    (wait_for_deployment service deploy_group instances ready timeout).result =
        .error .timeoutError ∧
    timeout ≤
        (wait_for_deployment service deploy_group instances ready timeout).elapsed ∧
    (wait_for_deployment service deploy_group instances ready timeout).elapsed <
        timeout + 10 ∧
    (wait_for_deployment service deploy_group instances ready timeout).logs =
        [mkDeployEvent service (timedOutLine timeout deploy_group service)] := by
  have hje : instances.isEmpty = false := by
    cases instances with
    | nil => exact absurd rfl hne
    | cons a l => rfl
  have hpoll : poll_loop (fun k => instances.all (ready k)) timeout 0 = none :=
    poll_loop_of_never _ timeout hnever 0
  simp [wait_for_deployment, hje, hpoll]

/-- Witness for C5 at concrete inputs: one instance that is never ready and
a 17 second timeout. -/
theorem c5_timeout_witness :
    (wait_for_deployment "svc" "dg" ["a"] (fun _ _ => false) 17).result =
        .error .timeoutError ∧
    17 ≤ (wait_for_deployment "svc" "dg" ["a"] (fun _ _ => false) 17).elapsed ∧
    (wait_for_deployment "svc" "dg" ["a"] (fun _ _ => false) 17).elapsed <
        17 + 10 ∧
    (wait_for_deployment "svc" "dg" ["a"] (fun _ _ => false) 17).logs =
        [mkDeployEvent "svc" (timedOutLine 17 "dg" "svc")] :=
  c5_timeout "svc" "dg" ["a"] (fun _ _ => false) 17 (by decide)
    (fun _ => rfl)

/-- Claim C7: `mark_for_deployment` never raises past its boundary (it is a
total function of the push outcome). On a successful push it returns 0 and
emits exactly one event line; on a failed push it returns 1, carrying the
cause: one header line followed by one event line per physical line of the
failure message, so multi-line causes stay multi-line in the audit trail. -/
theorem c7_mark_for_deployment (deploy_group service commit : String) :
    (mark_for_deployment deploy_group service commit (.ok ()) =
      (0, [mkDeployEvent service (markedLine commit deploy_group)])) ∧
    (∀ e, (mark_for_deployment deploy_group service commit (.error e)).1 = 1 ∧
      (mark_for_deployment deploy_group service commit (.error e)).2 =
        (failedLine commit deploy_group :: e.splitOn "\n").map
          (mkDeployEvent service) ∧
      (mark_for_deployment deploy_group service commit (.error e)).2.length =
        1 + (e.splitOn "\n").length) := by
  refine ⟨rfl, fun e => ⟨rfl, rfl, ?_⟩⟩
  simp [mark_for_deployment, Nat.add_comm]

end MarkForDeployment

namespace MarkForDeployment

/-- Parsed command-line arguments consumed by `paasta_mark_for_deployment`. -/
structure Args where
  git_url : String
  commit : String
  deploy_group : String
  service : String
  soa_dir : String
  block : Bool
  timeout : Nat

/-- One externally observable interaction of `paasta_mark_for_deployment`:
the service-name validation, the call into `mark_for_deployment` (the
signaling operation) with its arguments, an emitted log event, or the call
into `wait_for_deployment` with its arguments. -/
inductive Call where
  | validate_service_name (service soa_dir : String)
  | mark (git_url deploy_group service commit : String)
  | log (e : LogEvent)
  | wait (service deploy_group commit soa_dir : String) (timeout : Nat)
deriving DecidableEq

/-- Control-flow outcome of `paasta_mark_for_deployment`: a normal return of
`ret`, a `sys.exit(1)` (the caught `TimeoutError`), or a propagated
exception (`NoInstancesFound` is not caught by the wrapper). -/
inductive MfdOutcome where
  | returns (code : Nat)
  | exits (code : Nat)
  | raises (e : WaitError)
deriving DecidableEq

/-- Log line emitted before blocking on the wait. -/
def waitingLine (commit deploy_group : String) : String :=
  "Waiting for deployment of " ++ commit ++ " to " ++ deploy_group ++
    " complete"

/-- Log line emitted after a successful wait. -/
def completeLine (commit deploy_group : String) : String :=
  "Deployment of " ++ commit ++ " to " ++ deploy_group ++ " complete"

/-- Embedding of `paasta_mark_for_deployment(args)`. The push outcome is
`pushResult`; the API instance resolution is `instancesOf service
deploy_group` and per-iteration readiness is `ready`, both threaded into
the embedded `wait_for_deployment`. When `args.service` starts with
"services-" the wrapper rebinds the local `service` to
`service.split("services-", 1)[1]`, which under that guard is the string
with its first 9 characters (the prefix) removed — and that stripped name
is what validation, the signaling call and all log events use, while the
wait call passes `args.service` and `args.deploy_group` unchanged.
`TimeoutError` from the wait maps to `sys.exit(1)`; `NoInstancesFound`
propagates. -/
def paasta_mark_for_deployment (args : Args) (pushResult : Except String Unit)
    (instancesOf : String → String → List String)
    (ready : Nat → String → Bool) : MfdOutcome × List Call :=
  let deploy_group := args.deploy_group
  let service :=
    if pyStartswith args.service "services-" then
      args.service.drop "services-".length
    else args.service
  let mfd := mark_for_deployment deploy_group service args.commit pushResult
  let pre : List Call :=
    Call.validate_service_name service args.soa_dir ::
      Call.mark args.git_url deploy_group service args.commit ::
      mfd.2.map Call.log
  if args.block then
    let w := wait_for_deployment args.service args.deploy_group
      (instancesOf args.service args.deploy_group) ready args.timeout
    let calls := pre ++
      (Call.log (mkDeployEvent service (waitingLine args.commit deploy_group)) ::
        Call.wait args.service args.deploy_group args.commit args.soa_dir
          args.timeout ::
        w.logs.map Call.log)
    match w.result with
    | .ok _ =>
      (.returns mfd.1,
        calls ++
          [Call.log (mkDeployEvent service (completeLine args.commit deploy_group))])
    | .error .noInstancesFound => (.raises .noInstancesFound, calls)
    | .error .timeoutError => (.exits 1, calls)
  else
    (.returns mfd.1, pre)

end MarkForDeployment

namespace MarkForDeployment

/-- Claim C10: when the service argument starts with "services-" and the
blocking wait is requested, the validation and the signaling (mark) call
use the stripped service name, the wait call uses the original unstripped
`args.service`, and the two names differ. -/
theorem c10_service_name_mismatch (args : Args)
    (pushResult : Except String Unit)
    (instancesOf : String → String → List String)
    (ready : Nat → String → Bool)
    (hs : pyStartswith args.service "services-" = true)
    (hb : args.block = true) :
    Call.validate_service_name (args.service.drop "services-".length)
        args.soa_dir ∈
      (paasta_mark_for_deployment args pushResult instancesOf ready).2 ∧
    Call.mark args.git_url args.deploy_group
        (args.service.drop "services-".length) args.commit ∈
      (paasta_mark_for_deployment args pushResult instancesOf ready).2 ∧
    Call.wait args.service args.deploy_group args.commit args.soa_dir
        args.timeout ∈
      (paasta_mark_for_deployment args pushResult instancesOf ready).2 ∧
    args.service.drop "services-".length ≠ args.service := by
  have hneq : args.service.drop "services-".length ≠ args.service := by
    intro heq
    have hdata := congrArg String.data heq
    rw [String.data_drop] at hdata
    have hpre : "services-".data <+: args.service.data := by
      have := hs
      unfold pyStartswith at this
      exact (List.isPrefixOf_iff_prefix).mp this
    have hlen : "services-".data.length ≤ args.service.data.length :=
      hpre.length_le
    have hlend := congrArg List.length hdata
    rw [List.length_drop] at hlend
    have h9d : "services-".data.length = 9 := rfl
    have h9 : "services-".length = 9 := rfl
    rw [h9d] at hlen
    rw [h9] at hlend
    omega
  refine ⟨?_, ?_, ?_, hneq⟩ <;>
  · simp only [paasta_mark_for_deployment, hs, hb, if_true]
    rcases hres : (wait_for_deployment args.service args.deploy_group
        (instancesOf args.service args.deploy_group) ready args.timeout).result with h | u
    · rcases h with h | h <;> simp [hres, List.mem_append]
    · simp [hres, List.mem_append]

/-- Witness for C10 at concrete arguments with service "services-foo" and a
blocking wait that resolves no instances. -/
theorem c10_service_name_mismatch_witness :
    Call.validate_service_name ("services-foo".drop "services-".length)
        "/soa" ∈
      (paasta_mark_for_deployment
        { git_url := "git://x", commit := "c1", deploy_group := "dg",
          service := "services-foo", soa_dir := "/soa", block := true,
          timeout := 5 }
        (.ok ()) (fun _ _ => []) (fun _ _ => true)).2 ∧
    Call.mark "git://x" "dg" ("services-foo".drop "services-".length) "c1" ∈
      (paasta_mark_for_deployment
        { git_url := "git://x", commit := "c1", deploy_group := "dg",
          service := "services-foo", soa_dir := "/soa", block := true,
          timeout := 5 }
        (.ok ()) (fun _ _ => []) (fun _ _ => true)).2 ∧
    Call.wait "services-foo" "dg" "c1" "/soa" 5 ∈
      (paasta_mark_for_deployment
        { git_url := "git://x", commit := "c1", deploy_group := "dg",
          service := "services-foo", soa_dir := "/soa", block := true,
          timeout := 5 }
        (.ok ()) (fun _ _ => []) (fun _ _ => true)).2 ∧
    "services-foo".drop "services-".length ≠ "services-foo" :=
  c10_service_name_mismatch
    { git_url := "git://x", commit := "c1", deploy_group := "dg",
      service := "services-foo", soa_dir := "/soa", block := true,
      timeout := 5 }
    (.ok ()) (fun _ _ => []) (fun _ _ => true) (by decide) rfl

end MarkForDeployment

namespace ControllerWrappers

/-!
The kubernetes application controller wrappers
(paasta_tools/kubernetes/application/controller_wrappers.py) are exercised
by tests/kubernetes/application/test_controller_wrapper.py but the module
itself is not part of this source tree, so the definitions below are
modelled from the specification of the resource reconcilers and the bounce
controller, constrained by what those tests pin down (call counts, call
arguments, the 404-vs-found distinction, and the fresh background client).
-/

/-- Desired autoscaling policy of a deployment config: `absent` when no
autoscaling is requested (no max_instances), `managed` for the default
HPA-managed autoscaling, `bespoke` when autoscaling.decision_policy is
"bespoke" (externally managed). -/
inductive DecisionPolicy where
  | absent
  | managed
  | bespoke
deriving DecidableEq

/-- Desired horizontal-pod-autoscaler spec. -/
structure HpaSpec where
  name : String
  ns : String
  min_replicas : Nat
  max_replicas : Nat
deriving DecidableEq

/-- Modelled from the spec: `get_autoscaling_metric_spec`
(paasta_tools/kubernetes_tools.py, not under src/) computes the desired
autoscaler spec for the named resource from the configured instance
bounds and metric configuration. -/
def get_autoscaling_metric_spec (name ns : String)
    (min_instances max_instances : Nat) : HpaSpec :=
  { name := name, ns := ns, min_replicas := min_instances,
    max_replicas := max_instances }

/-- Autoscaler API calls issued by one reconciliation pass. -/
structure HpaCalls where
  creates : List HpaSpec
  patches : List HpaSpec
  deletes : Nat
deriving DecidableEq

/-- Modelled from the spec: `Application.sync_horizontal_pod_autoscaler`
(controller_wrappers.py, not under src/). Bespoke policy: no action at
all, whatever the live state. Absent policy: delete the live autoscaler
if one exists, else nothing. Managed policy: create the computed spec
when no live autoscaler exists, else patch the existing one wholesale
with the computed spec. `exists_hpa` is the live-autoscaler presence. -/
def sync_horizontal_pod_autoscaler (policy : DecisionPolicy)
    (name ns : String) (min_instances max_instances : Nat)
    (exists_hpa : Bool) : HpaCalls :=
  match policy with
  | .bespoke => { creates := [], patches := [], deletes := 0 }
  | .absent =>
    if exists_hpa then { creates := [], patches := [], deletes := 1 }
    else { creates := [], patches := [], deletes := 0 }
  | .managed =>
    if exists_hpa then
      { creates := [],
        patches := [get_autoscaling_metric_spec name ns min_instances
          max_instances],
        deletes := 0 }
    else
      { creates := [get_autoscaling_metric_spec name ns min_instances
          max_instances],
        patches := [],
        deletes := 0 }

/-- Desired pod-disruption-budget resource. -/
structure PodDisruptionBudget where
  name : String
  ns : String
  max_unavailable : Nat
deriving DecidableEq

/-- Modelled from the spec: `pod_disruption_budget_for_service_instance`
(paasta_tools/kubernetes_tools.py, not under src/) builds the desired
disruption budget for a service instance in the "paasta" namespace with
the max-unavailable count computed from the bounce margin factor and the
instance count; that computed count is passed in here as
`max_unavailable`. -/
def pod_disruption_budget_for_service_instance (service instance_name : String)
    (max_unavailable : Nat) : PodDisruptionBudget :=
  { name := service ++ "-" ++ instance_name, ns := "paasta",
    max_unavailable := max_unavailable }

/-- Outcome of reading the live disruption budget: found, a 404 ApiException
(not found), or any other ApiException status code. -/
inductive ReadPdbResult where
  | found (live : PodDisruptionBudget)
  | notFound
  | apiError (status : Nat)
deriving DecidableEq

/-- Disruption-budget API calls issued by one reconciliation pass. -/
structure PdbCalls where
  creates : List PodDisruptionBudget
  patches : List PodDisruptionBudget
deriving DecidableEq

/-- Modelled from the spec: `Application.ensure_pod_disruption_budget`
(controller_wrappers.py, not under src/). Reads the live budget; on a 404
it creates the computed budget; when one is found it patches it
unconditionally with the computed budget, with no equality
short-circuit; any other read failure propagates as a fatal error for
this reconciliation pass. -/
def ensure_pod_disruption_budget (service instance_name : String)
    (computed_max_unavailable : Nat) (read : ReadPdbResult) :
    Except Nat PdbCalls :=
  let pdr := pod_disruption_budget_for_service_instance service instance_name
    computed_max_unavailable
  match read with
  | .notFound => .ok { creates := [pdr], patches := [] }
  | .found _ => .ok { creates := [], patches := [pdr] }
  | .apiError s => .error s

/-- Bounce strategy of a deployment config. -/
inductive BounceMethod where
  | rolling
  | brutal
deriving DecidableEq

/-- A cluster API client, identified so that distinct connections can be
told apart. -/
structure KubeClient where
  id : Nat
deriving DecidableEq

/-- Observable behaviour of one `DeploymentWrapper.update` call: the clients
handed to launched background deep_delete_and_create units, the number of
background units joined (awaited) before the call returned, and the
number of in-place replace calls issued. -/
structure UpdateTrace where
  background_units : List KubeClient
  joins : Nat
  replace_calls : Nat
deriving DecidableEq

/-- Modelled from the spec: `DeploymentWrapper.update`
(controller_wrappers.py, not under src/). With bounce_method "brutal" it
constructs a fresh KubeClient (modelled as an id one greater than the
caller client id, hence distinct from the caller client) and launches
`deep_delete_and_create` on a background thread with that fresh client as
its argument, returning without joining the thread; with bounce_method
"rolling" it issues one in-place replace and launches no background
unit. -/
def DeploymentWrapper.update (bounce_method : BounceMethod)
    (kube_client : KubeClient) : UpdateTrace :=
  match bounce_method with
  | .brutal =>
    let new_client : KubeClient := { id := kube_client.id + 1 }
    { background_units := [new_client], joins := 0, replace_calls := 0 }
  | .rolling =>
    { background_units := [], joins := 0, replace_calls := 1 }

end ControllerWrappers

namespace ControllerWrappers

/-- Claim C2: autoscaler reconciliation as a four-case function of policy
and live-autoscaler presence: bespoke issues nothing for any live state;
absent with a live autoscaler issues exactly one delete and nothing else;
managed with no live autoscaler issues exactly one create carrying the
computed spec; managed with a live autoscaler issues exactly one patch
carrying the computed spec and no create. -/
theorem c2_sync_hpa_cases (name ns : String) (min_instances max_instances : Nat) :
    (∀ live, sync_horizontal_pod_autoscaler .bespoke name ns min_instances
        max_instances live =
      { creates := [], patches := [], deletes := 0 }) ∧
    sync_horizontal_pod_autoscaler .absent name ns min_instances
        max_instances true =
      { creates := [], patches := [], deletes := 1 } ∧
    sync_horizontal_pod_autoscaler .managed name ns min_instances
        max_instances false =
      { creates := [get_autoscaling_metric_spec name ns min_instances
          max_instances],
        patches := [], deletes := 0 } ∧
    sync_horizontal_pod_autoscaler .managed name ns min_instances
        max_instances true =
      { creates := [],
        patches := [get_autoscaling_metric_spec name ns min_instances
          max_instances],
        deletes := 0 } := by
  refine ⟨fun live => ?_, rfl, rfl, rfl⟩
  cases live <;> rfl

/-- Claim C3: disruption-budget reconciliation issues exactly one create
carrying the computed max-unavailable when the live read is a 404, and
exactly one patch carrying the computed value whenever a live resource
exists — for every prior live value, equal or not, so there is no
equality short-circuit skipping the patch. -/
theorem c3_ensure_pdb_cases (service instance_name : String)
    (computed_max_unavailable : Nat) :
    ensure_pod_disruption_budget service instance_name computed_max_unavailable
        .notFound =
      .ok { creates := [pod_disruption_budget_for_service_instance service
              instance_name computed_max_unavailable],
            patches := [] } ∧
    (∀ live, ensure_pod_disruption_budget service instance_name
        computed_max_unavailable (.found live) =
      .ok { creates := [],
            patches := [pod_disruption_budget_for_service_instance service
              instance_name computed_max_unavailable] }) := by
  exact ⟨rfl, fun live => rfl⟩

/-- Claim C4: an update with bounce_method "brutal" launches exactly one
background destructive unit, targeting a freshly constructed client
distinct from the caller client, and joins no background unit before
returning; an update with bounce_method "rolling" launches zero such
units. -/
theorem c4_brutal_bounce (kube_client : KubeClient) :
    (DeploymentWrapper.update .brutal kube_client).background_units =
      [{ id := kube_client.id + 1 }] ∧
    ({ id := kube_client.id + 1 } : KubeClient) ≠ kube_client ∧
    (DeploymentWrapper.update .brutal kube_client).joins = 0 ∧
    (DeploymentWrapper.update .rolling kube_client).background_units = [] := by
  refine ⟨rfl, ?_, rfl, rfl⟩
  intro h
  have := congrArg KubeClient.id h
  simp only at this
  omega

end ControllerWrappers
